import Mathlib

/-!
Verification development for the DogPuter input-to-presentation pipeline.

Shallow embedding of the core Python modules:
  * `src/dogputer/core/app_state.py`  (Mode, ContentType, InputState, ImageContent,
    VideoContent, TextContent, FeedbackState, ContentState, AppState)
  * `src/dogputer/core/commands.py`   (ContentCommand, VideoChannelCommand)
  * `src/dogputer/io/input_mapper.py` (InputMapper.map_axis_to_command)
  * `src/dogputer/ui/view_state.py`   (RenderCommand, ViewState, ViewStateGenerator)

Wall-clock times and axis values are modelled as rationals.  External
collaborators (filesystem, image loader, video player, TTS) are modelled by an
explicit `Env` of pure functions, and their invocations are recorded as an
`Effect` trace.  Python attribute errors (the enums have no `IMAGE` member) and
`ZeroDivisionError` are modelled with `Except PyError`.
-/

namespace DogPuter

abbrev Time := ℚ

/-- Abstract handle for a `pygame.Surface`; only identity matters here. -/
structure Surface where
  id : String
deriving DecidableEq, Repr

/-- Abstract handle for a `pygame.font.Font`. -/
abbrev Font := ℕ

abbrev Color := ℕ × ℕ × ℕ

def yellowColor : Color := (255, 255, 0)

def blueColor : Color := (0, 0, 255)

def redColor : Color := (255, 0, 0)

/-- Python runtime errors that the embedded code can raise. -/
inductive PyError
  | attributeError (name : String)
  | zeroDivisionError
  | indexError
deriving DecidableEq, Repr

/-- `class Mode(enum.Enum)` from app_state.py: only WAITING, VIDEO, TEXT. -/
inductive Mode
  | WAITING
  | VIDEO
  | TEXT
deriving DecidableEq, Repr

/-- `mode.name` attribute of a Python enum member. -/
def Mode.name : Mode → String
  | .WAITING => "WAITING"
  | .VIDEO => "VIDEO"
  | .TEXT => "TEXT"

/-- Python attribute access `Mode.<attr>`: only declared members resolve,
anything else raises `AttributeError` (modelled as `none`). -/
def Mode.fromName : String → Option Mode
  | "WAITING" => some .WAITING
  | "VIDEO" => some .VIDEO
  | "TEXT" => some .TEXT
  | _ => none

/-- `class ContentType(enum.Enum)` from app_state.py: NONE, VIDEO, TEXT, WAITING. -/
inductive ContentType
  | NONE
  | VIDEO
  | TEXT
  | WAITING
deriving DecidableEq, Repr

/-- Python attribute access `ContentType.<attr>`. -/
def ContentType.fromName : String → Option ContentType
  | "NONE" => some .NONE
  | "VIDEO" => some .VIDEO
  | "TEXT" => some .TEXT
  | "WAITING" => some .WAITING
  | _ => none

/-- Python substring test `pat in s`. -/
def strContains (s pat : String) : Bool :=
  (List.range (s.length + 1)).any
    (fun i => (s.toList.drop i).take pat.toList.length == pat.toList)

/-- Calls on external collaborators, recorded as a trace. -/
inductive Effect
  | playSound (file : String)
  | speak (text : String)
  | playVideoCall (file : String)
  | stopVideo
deriving DecidableEq, Repr

/-- `InputState` from app_state.py: cooldown gate state. -/
structure InputState where
  lastInputTime : Time
  baseCooldown : Time
  maxCooldown : Time
  inputCooldown : Time
  lastChannelChange : Time
  rejectedInputsCount : ℕ
deriving DecidableEq, Repr

/-- `InputState.__init__(cooldown=1.5, max_cooldown=5.0)`. -/
def InputState.init : InputState :=
  { lastInputTime := 0
    baseCooldown := 3/2
    maxCooldown := 5
    inputCooldown := 3/2
    lastChannelChange := 0
    rejectedInputsCount := 0 }

/-- `InputState.is_input_allowed`: checks the cooldown against `now` and, when
allowed, resets the current cooldown to the base value (a mutation performed
inside the check itself in the source). -/
def InputState.isInputAllowed (s : InputState) (now : Time) : Bool × InputState :=
  if s.inputCooldown ≤ now - s.lastInputTime then
    (true, { s with inputCooldown := s.baseCooldown, rejectedInputsCount := 0 })
  else
    (false, s)

/-- `InputState.record_input`. -/
def InputState.recordInput (s : InputState) (now : Time) : InputState :=
  { s with lastInputTime := now }

/-- `InputState.is_channel_change_allowed` (the `hasattr` guard is always true
after `__init__`). -/
def InputState.isChannelChangeAllowed (s : InputState) (now : Time) : Bool :=
  3/2 ≤ now - s.lastChannelChange

/-- `InputState.record_channel_change`. -/
def InputState.recordChannelChange (s : InputState) (now : Time) : InputState :=
  { s with lastChannelChange := now, lastInputTime := now }

/-- `ImageContent` from app_state.py: image display with crossfade sub-state. -/
structure ImageContent where
  currentImage : Option Surface
  previousImage : Option Surface
  nextImage : Option Surface
  inTransition : Bool
  transitionStartTime : Time
  transitionDuration : Time
  displayEndTime : Time
deriving DecidableEq, Repr

/-- `ImageContent.__init__`. -/
def ImageContent.init : ImageContent :=
  { currentImage := none
    previousImage := none
    nextImage := none
    inTransition := false
    transitionStartTime := 0
    transitionDuration := 4/5
    displayEndTime := 0 }

/-- `DEFAULT_DISPLAY_TIME` from config.py. -/
def DEFAULT_DISPLAY_TIME : Time := 5

/-- `FEEDBACK_DURATION` from config.py. -/
def FEEDBACK_DURATION : Time := 9/5

/-- `ImageContent.set_image(image, display_time)`; a `pygame.Surface` is always
truthy, so `if self.current_image` is `isSome`. -/
def ImageContent.setImage (st : ImageContent) (image : Surface) (displayTime now : Time) :
    ImageContent :=
  if st.currentImage.isSome && !st.inTransition then
    { st with
      previousImage := st.currentImage
      nextImage := some image
      inTransition := true
      transitionStartTime := now
      displayEndTime := now + displayTime + st.transitionDuration }
  else
    { st with currentImage := some image, displayEndTime := now + displayTime }

/-- `ImageContent.update(delta_time)`: commits the transition once the elapsed
time reaches the duration, and reports whether the display time is still
running. -/
def ImageContent.update (st : ImageContent) (now : Time) : ImageContent × Bool :=
  let st' :=
    if st.inTransition && decide (st.transitionDuration ≤ now - st.transitionStartTime) then
      { st with
        currentImage := st.nextImage
        previousImage := none
        nextImage := none
        inTransition := false }
    else st
  (st', decide (now < st'.displayEndTime))

/-- One entry of `VIDEO_CHANNELS` from config.py. -/
structure Channel where
  video : String
  name : String
deriving DecidableEq, Repr

/-- `VideoContent` from app_state.py.  The `video_player` collaborator lives in
`Env`; `current_video_filename` is assigned dynamically in
`ContentCommand.execute`, so before that assignment it is `none` (`hasattr`
is false). -/
structure VideoContent where
  currentChannel : ℕ
  isPlaying : Bool
  currentVideoFilename : Option String
deriving DecidableEq, Repr

/-- `VideoContent.__init__(video_player)`. -/
def VideoContent.init : VideoContent :=
  { currentChannel := 0, isPlaying := false, currentVideoFilename := none }

/-- External collaborators of the core: filesystem, image loading and the
video player, as pure functions. -/
structure Env where
  pathExists : String → Bool
  loadImage : String → Option Surface
  playVideo : String → Bool

/-- `VideoContent.stop`. -/
def VideoContent.stop (vc : VideoContent) : VideoContent × List Effect :=
  if vc.isPlaying then ({ vc with isPlaying := false }, [.stopVideo]) else (vc, [])

/-- `VideoContent.play_channel(channel_index)`: stores the index when in range,
then attempts playback; returns `(success, failed-channel-name)`. -/
def VideoContent.playChannel (env : Env) (channels : List Channel) (vc : VideoContent)
    (channelIndex : ℤ) : VideoContent × Bool × Option String × List Effect :=
  if 0 ≤ channelIndex && channelIndex < (channels.length : ℤ) then
    match channels[channelIndex.toNat]? with
    | some channel =>
      let vc' := { vc with currentChannel := channelIndex.toNat }
      if env.playVideo channel.video then
        ({ vc' with isPlaying := true }, true, none, [.playVideoCall channel.video])
      else
        ({ vc' with isPlaying := false }, false, some channel.name, [.playVideoCall channel.video])
    | none => (vc, false, none, [])
  else
    (vc, false, none, [])

/-- `VideoContent.change_channel(direction)`: Python `%` on a possibly negative
dividend is `Int.emod`; an empty channel list raises `ZeroDivisionError`. -/
def VideoContent.changeChannel (env : Env) (channels : List Channel) (vc : VideoContent)
    (direction : ℤ) : Except PyError (VideoContent × Bool × Option String × List Effect) :=
  if channels.length = 0 then
    .error .zeroDivisionError
  else
    let newChannel := ((vc.currentChannel : ℤ) + direction) % (channels.length : ℤ)
    .ok (VideoContent.playChannel env channels vc newChannel)

/-- `TextContent` from app_state.py; the pygame rendering is external, the
rendered surface is identified by the text it shows. -/
structure TextContent where
  text : String
  surface : Option Surface
  displayEndTime : Time
deriving DecidableEq, Repr

/-- `TextContent.__init__(bg_color)`. -/
def TextContent.init : TextContent :=
  { text := "", surface := none, displayEndTime := 0 }

/-- `TextContent.set_text(text, font, display_time, ...)`. -/
def TextContent.setText (tc : TextContent) (text : String) (displayTime now : Time) :
    TextContent :=
  { tc with
    text := text
    surface := some ⟨"text:" ++ text⟩
    displayEndTime := now + displayTime }

/-- `FeedbackState` from app_state.py. -/
structure FeedbackState where
  message : String
  color : Color
  startTime : Time
  duration : Time
  animationStartTime : Time
  animationDuration : Time
  isActive : Bool
  inputRejected : Bool
deriving DecidableEq, Repr

/-- `FeedbackState.__init__()` (duration defaults to `FEEDBACK_DURATION`). -/
def FeedbackState.init : FeedbackState :=
  { message := ""
    color := (0, 0, 255)
    startTime := 0
    duration := FEEDBACK_DURATION
    animationStartTime := 0
    animationDuration := 1/5
    isActive := false
    inputRejected := false }

/-- `FeedbackState.show_feedback(message, color)`: flags a rejection when the
message contains "too fast" (lower-cased) or the color is yellow. -/
def FeedbackState.showFeedback (f : FeedbackState) (message : String) (color : Color)
    (now : Time) : FeedbackState :=
  { f with
    message := message
    color := color
    startTime := now
    animationStartTime := now
    isActive := true
    inputRejected := strContains message.toLower "too fast" || color == yellowColor }

/-- `FeedbackState.update(delta_time, input_state)`: a rejection feedback stays
visible until the gate would accept again (`is_input_allowed` mutates the gate,
so the possibly-updated gate is returned too). -/
def FeedbackState.update (f : FeedbackState) (now : Time) (inputState : Option InputState) :
    FeedbackState × Option InputState :=
  if !f.isActive then
    (f, inputState)
  else
    match inputState, f.inputRejected with
    | some s, true =>
      let (allowed, s') := s.isInputAllowed now
      if allowed then
        ({ f with isActive := false, inputRejected := false }, some s')
      else
        (f, some s')
    | _, _ =>
      if f.duration ≤ now - f.startTime then
        ({ f with isActive := false }, inputState)
      else
        (f, inputState)

/-- `FeedbackState.is_animating`. -/
def FeedbackState.isAnimating (f : FeedbackState) (now : Time) : Bool :=
  f.isActive && decide (now - f.animationStartTime < f.animationDuration)

/-- `WaitingScreenContent` from app_state.py (purely cosmetic animation clock). -/
structure WaitingScreenContent where
  animationTime : Time
deriving DecidableEq, Repr

/-- `ContentState` from app_state.py. -/
structure ContentState where
  currentType : ContentType
  imageContent : ImageContent
  videoContent : VideoContent
  textContent : TextContent
  waitingContent : WaitingScreenContent
deriving DecidableEq, Repr

/-- `ContentState.__init__(video_player, bg_color)`. -/
def ContentState.init : ContentState :=
  { currentType := .WAITING
    imageContent := ImageContent.init
    videoContent := VideoContent.init
    textContent := TextContent.init
    waitingContent := { animationTime := 0 } }

/-- `ContentState.set_image(image, display_time)`: stops video, mutates the
image sub-state, then evaluates `ContentType.IMAGE`, which raises
`AttributeError` because the enum has no such member. -/
def ContentState.setImage (cs : ContentState) (image : Surface) (displayTime now : Time) :
    Except PyError (ContentState × List Effect) :=
  let (vc, effs) := cs.videoContent.stop
  let ic := cs.imageContent.setImage image displayTime now
  match ContentType.fromName "IMAGE" with
  | some ct => .ok ({ cs with videoContent := vc, imageContent := ic, currentType := ct }, effs)
  | none => .error (.attributeError "IMAGE")

/-- `ContentState.set_video_by_filename(video_filename)`. -/
def ContentState.setVideoByFilename (env : Env) (cs : ContentState) (videoFilename : String) :
    ContentState × Bool × List Effect :=
  if env.playVideo videoFilename then
    ({ cs with
        videoContent := { cs.videoContent with isPlaying := true }
        currentType := .VIDEO },
     true, [.playVideoCall videoFilename])
  else
    (cs, false, [.playVideoCall videoFilename])

/-- `ContentState.set_text(text, font, display_time, ...)`: only switches to
TEXT when a truthy font is supplied. -/
def ContentState.setText (cs : ContentState) (text : String) (font : Option Font)
    (displayTime now : Time) : ContentState × Bool × List Effect :=
  let (vc, effs) := cs.videoContent.stop
  match font with
  | some _ =>
    ({ cs with
        videoContent := vc
        textContent := cs.textContent.setText text displayTime now
        currentType := .TEXT }, true, effs)
  | none => ({ cs with videoContent := vc }, false, effs)

/-- `ContentState.change_video_channel(direction)`: a no-op returning
`(False, None)` unless the current content type is VIDEO. -/
def ContentState.changeVideoChannel (env : Env) (channels : List Channel)
    (cs : ContentState) (direction : ℤ) :
    Except PyError (ContentState × Bool × Option String × List Effect) :=
  if cs.currentType == .VIDEO then
    match cs.videoContent.changeChannel env channels direction with
    | .error e => .error e
    | .ok (vc, success, channelName, effs) =>
      let cs' := { cs with videoContent := vc }
      if !success && channelName.isSome then
        .ok (cs', false, channelName, effs)
      else
        .ok (cs', success, none, effs)
  else
    .ok (cs, false, none, [])

/-- `AppState` from app_state.py (the collaborator handles live in `Env`). -/
structure AppState where
  mode : Mode
  inputState : InputState
  contentState : ContentState
  feedbackState : FeedbackState
  font : Option Font
  screenWidth : ℕ
  screenHeight : ℕ
  pawCursor : Option Surface
deriving DecidableEq, Repr

/-- `AppState.__init__(...)` with an 800x600 screen and a loaded font. -/
def AppState.init : AppState :=
  { mode := .WAITING
    inputState := InputState.init
    contentState := ContentState.init
    feedbackState := FeedbackState.init
    font := some 0
    screenWidth := 800
    screenHeight := 600
    pawCursor := none }

/-- `AppState.show_feedback(message, color)`. -/
def AppState.showFeedback (app : AppState) (message : String) (color : Color)
    (now : Time) : AppState :=
  { app with feedbackState := app.feedbackState.showFeedback message color now }

/-- The admission part of `AppState.handle_command(command)`: the cooldown
check, the rejection feedback, and the `record_input` calls.  The returned
`Bool` is whether `command.execute` is reached.  No command's `execute`
writes the fields that the gate reads (`last_input_time` is rewritten by
`VideoChannelCommand.record_channel_change` with the same timestamp that
`record_input` just stored, and `input_cooldown`/`base_cooldown` are never
touched), so the gate's evolution is independent of the executed command. -/
def AppState.handleCommandGate (app : AppState) (now : Time) : Bool × AppState :=
  let (allowed, s1) := app.inputState.isInputAllowed now
  if !allowed then
    (false,
     { app with
        inputState := s1
        feedbackState := app.feedbackState.showFeedback
          ("Too fast! Wait " ++ toString s1.inputCooldown ++ "s") yellowColor now })
  else
    let app1 := { app with inputState := s1 }
    let app2 :=
      if app1.mode == .WAITING then
        { app1 with
            feedbackState := app1.feedbackState.showFeedback "Input accepted!" blueColor now
            inputState := app1.inputState.recordInput now }
      else app1
    (true, { app2 with inputState := app2.inputState.recordInput now })

/-- Folds `handle_command` over a list of submission times, collecting the
times whose command reached `execute`. -/
def gateRun (app : AppState) : List Time → List Time × AppState
  | [] => ([], app)
  | t :: ts =>
    let (ex, app') := app.handleCommandGate t
    let (rest, appF) := gateRun app' ts
    (if ex then t :: rest else rest, appF)

/-- Modelled from the spec (for the refinement in C1): the Admission Gate state
`{ lastAcceptedAt, cooldown, baseCooldown }`. -/
structure SpecGate where
  lastAcceptedAt : Time
  cooldown : Time
  baseCooldown : Time
deriving DecidableEq, Repr

/-- Modelled from the spec: "a command is accepted iff now − lastAcceptedAt ≥
cooldown. On acceptance, lastAcceptedAt resets to now and cooldown resets to
baseCooldown." -/
def SpecGate.step (g : SpecGate) (now : Time) : Bool × SpecGate :=
  if g.cooldown ≤ now - g.lastAcceptedAt then
    (true, { g with lastAcceptedAt := now, cooldown := g.baseCooldown })
  else
    (false, g)

/-- Modelled from the spec: the accepted subsequence of a command sequence. -/
def SpecGate.run (g : SpecGate) : List Time → List Time × SpecGate
  | [] => ([], g)
  | t :: ts =>
    let (acc, g') := g.step t
    let (rest, gF) := g'.run ts
    (if acc then t :: rest else rest, gF)

/-- The gate view of the embedded `InputState`. -/
def InputState.toSpecGate (s : InputState) : SpecGate :=
  { lastAcceptedAt := s.lastInputTime
    cooldown := s.inputCooldown
    baseCooldown := s.baseCooldown }

/-- `ContentCommand._display_image_fallback(app_state)` from commands.py:
loads `<name>.jpg`; on success it calls `ContentState.set_image` (which raises
`AttributeError` at `ContentType.IMAGE`) and would then evaluate `Mode.IMAGE`;
on failure it shows a red error feedback. -/
def displayImageFallback (env : Env) (contentName : String) (app : AppState)
    (now : Time) : Except PyError (AppState × List Effect) :=
  let imageName := contentName ++ ".jpg"
  match env.loadImage imageName with
  | some image =>
    match app.contentState.setImage image DEFAULT_DISPLAY_TIME now with
    | .ok (cs, effs) =>
      match Mode.fromName "IMAGE" with
      | some m => .ok ({ app with contentState := cs, mode := m }, effs)
      | none => .error (.attributeError "IMAGE")
    | .error e => .error e
  | none =>
    .ok (app.showFeedback ("Failed to load image: " ++ imageName) redColor now, [])

/-- `ContentCommand.execute(app_state)` from commands.py: feedback, sound and
TTS, then the repeat-selection check, then the video attempt with image
fallback.  There is no text fallback in this method. -/
def contentExecute (env : Env) (contentName : String) (app : AppState) (now : Time) :
    Except PyError (AppState × List Effect) :=
  let app := app.showFeedback (contentName.capitalize ++ " selected!") blueColor now
  let soundEffs : List Effect := [.playSound (contentName ++ ".wav"), .speak contentName]
  let videoFilename := contentName ++ ".mp4"
  let videoPath := "videos/" ++ videoFilename
  let videoPlaceholderPath := videoPath ++ ".txt"
  if app.mode.name == "VIDEO" && app.contentState.videoContent.isPlaying &&
      app.contentState.videoContent.currentVideoFilename == some videoFilename then
    .ok (app, soundEffs)
  else if env.pathExists videoPath then
    let (cs, result, effs) := app.contentState.setVideoByFilename env videoFilename
    if result then
      .ok ({ app with
              contentState :=
                { cs with
                    videoContent :=
                      { cs.videoContent with currentVideoFilename := some videoFilename } }
              mode := .VIDEO },
           soundEffs ++ effs)
    else
      match displayImageFallback env contentName { app with contentState := cs } now with
      | .ok (app', effs') => .ok (app', soundEffs ++ effs ++ effs')
      | .error e => .error e
  else if env.pathExists videoPlaceholderPath then
    match displayImageFallback env contentName app now with
    | .ok (app', effs') =>
      .ok (app'.showFeedback "Video placeholder - using image instead" blueColor now,
           soundEffs ++ effs')
    | .error e => .error e
  else
    match displayImageFallback env contentName app now with
    | .ok (app', effs') => .ok (app', soundEffs ++ effs')
    | .error e => .error e

/-- `VideoChannelCommand.execute(app_state)` from commands.py.  Note that
`change_video_channel` always returns a tuple, so the trailing `elif result:`
(which would set Video mode) never fires; and the fallback branch recomputes
`channel_index` from the already-advanced `current_channel` for the TTS call. -/
def videoChannelExecute (env : Env) (channels : List Channel) (direction : ℤ)
    (app : AppState) (now : Time) : Except PyError (AppState × List Effect) :=
  let app := { app with inputState := app.inputState.recordChannelChange now }
  let app := app.showFeedback "Channel changed!" blueColor now
  match app.contentState.changeVideoChannel env channels direction with
  | .error e => .error e
  | .ok (cs, success, channelName, effs) =>
    let app := { app with contentState := cs }
    match success, channelName with
    | false, some name =>
      if channels.length = 0 then .error .zeroDivisionError
      else
        let channelIndex :=
          (((app.contentState.videoContent.currentChannel : ℤ) + direction) %
            (channels.length : ℤ)).toNat
        match channels[channelIndex]? with
        | some channel =>
          let (cs', _ok, effs') :=
            app.contentState.setText ("Channel: " ++ name) app.font 3 now
          .ok ({ app with contentState := cs', mode := .TEXT },
               effs ++ [.speak channel.name] ++ effs')
        | none => .error .indexError
    | _, _ => .ok (app, effs)

/-- Commands produced by the input mapper (commands.py class hierarchy). -/
inductive Command
  | content (name : String)
  | videoChannel (direction : ℤ)
  | togglePause
  | exitApp
deriving DecidableEq, Repr

/-- Keys of the `input_mappings` table (input_mapper.py): keyboard codes and
structured joystick tuples. -/
inductive InputKey
  | key (code : ℕ)
  | button (joyId buttonIndex : ℕ)
  | hat (joyId : ℕ) (direction : String)
  | axis (joyId axisIndex : ℕ) (direction : String)
deriving DecidableEq, Repr

/-- The mapping table: one command name per input key, unknown keys map to
nothing. -/
abbrev InputMappings := InputKey → Option String

/-- `InputMapper._create_command_from_name(command_name)`. -/
def createCommandFromName (commandName : String) : Command :=
  if commandName == "channel_next" then .videoChannel 1
  else if commandName == "channel_prev" then .videoChannel (-1)
  else if commandName == "pause" then .togglePause
  else if commandName == "exit" then .exitApp
  else if "video_".isPrefixOf commandName then
    .content (commandName.drop 6)
  else
    .content commandName

/-- `InputMapper.map_axis_to_command(joy_id, axis, value)`: a pure function of
the current sample only — it keeps no previous-sample state. -/
def mapAxisToCommand (inputMappings : InputMappings) (joyId axis : ℕ) (value : ℚ) :
    Option Command :=
  if |value| < 1/2 then
    none
  else
    let direction := if 0 < value then "positive" else "negative"
    match inputMappings (.axis joyId axis direction) with
    | some commandName => some (createCommandFromName commandName)
    | none =>
      if axis = 0 then
        if 1/2 < value then some (.videoChannel 1)
        else if value < -(1/2) then some (.videoChannel (-1))
        else none
      else if axis = 1 then
        if 1/2 < value then some (.videoChannel 1)
        else if value < -(1/2) then some (.videoChannel (-1))
        else none
      else
        none

/-- `JoystickInputHandler.get_axis_commands`: maps every axis of the current
tick through `map_axis_to_command`, with no memory of the previous tick. -/
def getAxisCommands (inputMappings : InputMappings) (joyId : ℕ)
    (axisValues : List ℚ) : List Command :=
  (axisValues.enum.filterMap fun vi => mapAxisToCommand inputMappings joyId vi.1 vi.2)

/-- `RenderCommand` from view_state.py. -/
structure RenderCommand where
  type : String
  surface : Option Surface
  position : ℚ × ℚ
  color : Option Color
  alpha : ℕ
  z_index : ℤ
  thickness : ℕ
  text : Option String
deriving DecidableEq, Repr

/-- A render command for a surface at a position and z-index (the common case
in view_state.py; the remaining payload fields take their defaults). -/
def surfaceCmd (s : Surface) (pos : ℚ × ℚ) (alpha : ℕ) (z : ℤ) : RenderCommand :=
  { type := "surface", surface := some s, position := pos, color := none,
    alpha := alpha, z_index := z, thickness := 1, text := none }

/-- `ViewState` from view_state.py. -/
structure ViewState where
  render_commands : List RenderCommand
deriving DecidableEq, Repr

/-- Stable insertion of a command into a z-sorted list (helper for the
embedding of Python `list.sort(key=lambda cmd: cmd.z_index)`). -/
def insertByZ (c : RenderCommand) : List RenderCommand → List RenderCommand
  | [] => [c]
  | d :: ds => if d.z_index ≤ c.z_index then d :: insertByZ c ds else c :: d :: ds

/-- Stable sort by z-index (embedding of Python's stable `list.sort` with
`key=lambda cmd: cmd.z_index`). -/
def sortByZ : List RenderCommand → List RenderCommand
  | [] => []
  | c :: cs => insertByZ c (sortByZ cs)

/-- `ViewState.sort_commands`. -/
def ViewState.sortCommands (v : ViewState) : ViewState :=
  { render_commands := sortByZ v.render_commands }

/-- `ViewStateGenerator._generate_waiting_screen_view`: background (z=0), text
glow (z=1), four outline blits (z=2), main text (z=3), subtitle (z=2), and —
when a paw cursor is set — the paw (z=3) over its glow (z=2).  The cosmetic
geometry and alpha pulsing (math.sin of the wall clock) are external drawing
detail; positions are elided to the origin. -/
def generateWaitingScreenView (app : AppState) : List RenderCommand :=
  [surfaceCmd ⟨"waiting-bg"⟩ (0, 0) 255 0,
   surfaceCmd ⟨"text-glow"⟩ (0, 0) 255 1,
   surfaceCmd ⟨"main-outline-1"⟩ (0, 0) 255 2,
   surfaceCmd ⟨"main-outline-2"⟩ (0, 0) 255 2,
   surfaceCmd ⟨"main-outline-3"⟩ (0, 0) 255 2,
   surfaceCmd ⟨"main-outline-4"⟩ (0, 0) 255 2,
   surfaceCmd ⟨"main-text"⟩ (0, 0) 255 3,
   surfaceCmd ⟨"sub-text"⟩ (0, 0) 255 2] ++
  (match app.pawCursor with
   | some paw => [surfaceCmd paw (0, 0) 255 3, surfaceCmd ⟨"paw-glow"⟩ (0, 0) 255 2]
   | none => [])

/-- `ViewStateGenerator._generate_video_view`: when the player yields a frame,
the frame (z=0), then — when a current video filename is set — the command
name overlay (z=10), then the decorative TV frame (z=5); nothing otherwise. -/
def generateVideoView (app : AppState) (frame : Option Surface) : List RenderCommand :=
  match frame with
  | none => []
  | some fr =>
    [surfaceCmd fr (0, 0) 255 0] ++
    (match app.contentState.videoContent.currentVideoFilename with
     | some f => if f ≠ "" then [surfaceCmd ⟨"command-overlay"⟩ (20, 20) 255 10] else []
     | none => []) ++
    [surfaceCmd ⟨"video-frame"⟩ (0, 0) 255 5]

/-- `ViewStateGenerator._generate_text_view`. -/
def generateTextView (app : AppState) : List RenderCommand :=
  match app.contentState.textContent.surface with
  | some s => [surfaceCmd s (0, 0) 255 0]
  | none => []

/-- `ViewStateGenerator._generate_feedback_view`: channel feedback is skipped;
otherwise the icon (z=15), then the cooldown progress ring (z=14) for an active
rejection, then the whole-screen flash (z=13) while animating.  (The
success/error distinction only changes the drawn glyph, not the command
sequence.) -/
def generateFeedbackView (app : AppState) (now : Time) : List RenderCommand :=
  let f := app.feedbackState
  let isError := strContains f.message.toLower "rejected" ||
    strContains f.message.toLower "too fast" || f.color == yellowColor
  let isChannel := strContains f.message.toLower "channel"
  if isChannel then []
  else
    [surfaceCmd ⟨"feedback-icon"⟩ (0, 0) 255 15] ++
    (if isError && f.inputRejected then
      [surfaceCmd ⟨"cooldown-progress"⟩ (0, 0) 255 14]
     else []) ++
    (if f.isAnimating now then [surfaceCmd ⟨"feedback-flash"⟩ (0, 0) 255 13] else [])

/-- `ViewStateGenerator.generate_view_state(app_state)`: dispatches on the
mode, appends the feedback overlay when active, and sorts by z-index before
handing the view state to the renderer.  `frame` is the surface the external
video player yields for this tick. -/
def generateViewState (app : AppState) (frame : Option Surface) (now : Time) : ViewState :=
  let modeCmds :=
    match app.mode with
    | .WAITING => generateWaitingScreenView app
    | .VIDEO => generateVideoView app frame
    | .TEXT => generateTextView app
  let cmds :=
    modeCmds ++ (if app.feedbackState.isActive then generateFeedbackView app now else [])
  ViewState.sortCommands { render_commands := cmds }

/-- The state component of `VideoContent.change_channel` (the state is
unchanged when the call raises). -/
def changeChannelState (env : Env) (channels : List Channel) (direction : ℤ)
    (vc : VideoContent) : VideoContent :=
  match vc.changeChannel env channels direction with
  | .ok (vc', _, _, _) => vc'
  | .error _ => vc

/-- Repeated `ImageContent.update` at the given wall-clock times. -/
def ImageContent.updateRun (st : ImageContent) : List Time → ImageContent
  | [] => st
  | t :: ts => ((st.update t).1).updateRun ts

/-- The image sub-states reachable by the operations the source performs on
`ImageContent`: construction, `set_image`, and `update`. -/
inductive ImageReachable : ImageContent → Prop
  | init : ImageReachable ImageContent.init
  | set : ∀ (st : ImageContent) (img : Surface) (dt now : Time),
      ImageReachable st → ImageReachable (st.setImage img dt now)
  | upd : ∀ (st : ImageContent) (now : Time),
      ImageReachable st → ImageReachable (st.update now).1

/-- An empty mapping table. -/
def emptyMappings : InputMappings := fun _ => none

/-- An environment with no video file, no placeholder and no loadable image. -/
def envMissing : Env :=
  { pathExists := fun _ => false
    loadImage := fun _ => none
    playVideo := fun _ => false }

/-- An environment where every image loads but no video exists or plays. -/
def envWithImage : Env :=
  { pathExists := fun _ => false
    loadImage := fun _ => some ⟨"img"⟩
    playVideo := fun _ => false }

/-- An environment whose video player accepts every file. -/
def envPlayAll : Env :=
  { pathExists := fun _ => true
    loadImage := fun _ => none
    playVideo := fun _ => true }

/-- A three-entry `VIDEO_CHANNELS` table. -/
def sampleChannels : List Channel :=
  [{ video := "ocean.mp4", name := "Ocean" },
   { video := "birds.mp4", name := "Birds" },
   { video := "squirrels.mp4", name := "Squirrels" }]

/-- An application state currently playing the "ball" video. -/
def videoPlayingApp : AppState :=
  { AppState.init with
      mode := .VIDEO
      contentState :=
        { ContentState.init with
            currentType := .VIDEO
            videoContent :=
              { currentChannel := 0
                isPlaying := true
                currentVideoFilename := some "ball.mp4" } } }

/-- An image sub-state in the middle of a crossfade: a first image set at
t = 0, a second at t = 1 (transition start 1, duration 0.8). -/
def transitioningImage : ImageContent :=
  (ImageContent.init.setImage ⟨"a"⟩ 5 0).setImage ⟨"b"⟩ 5 1
/-- One step of the gate: `handle_command` accepts exactly when the spec gate
does, and the gate view of the resulting state is the spec gate's next state. -/
theorem handleCommandGate_spec (app : AppState) (now : Time) :
    (app.handleCommandGate now).1 = (app.inputState.toSpecGate.step now).1 ∧
    ((app.handleCommandGate now).2).inputState.toSpecGate =
      (app.inputState.toSpecGate.step now).2 := by
  unfold AppState.handleCommandGate InputState.isInputAllowed SpecGate.step
    InputState.toSpecGate
  by_cases h : app.inputState.inputCooldown ≤ now - app.inputState.lastInputTime
  · by_cases hm : app.mode = Mode.WAITING <;>
      simp [h, hm, InputState.recordInput]
  · simp [h]
theorem gateRun_refines (app : AppState) (ts : List Time) :
    (gateRun app ts).1 = (app.inputState.toSpecGate.run ts).1 := by
  induction ts generalizing app with
  | nil => rfl
  | cons t ts ih =>
    have hstep := handleCommandGate_spec app t
    simp only [gateRun, SpecGate.run]
    rw [ih, hstep.1, hstep.2]
/-- C1: for commands submitted at strictly increasing times, a command is
accepted (reaches `execute`) iff its time minus the last accepted time is at
least the current cooldown; acceptance resets the cooldown to the base value
and the last-accepted time to the command's time; the executed subsequence is
exactly the accepted subsequence of the spec gate. -/
theorem c1_admission_gate (app : AppState) (ts : List Time)
    (_hts : ts.Pairwise (· < ·)) :
    (gateRun app ts).1 = (app.inputState.toSpecGate.run ts).1 ∧
    (∀ t : Time,
      ((app.handleCommandGate t).1 = true ↔
        app.inputState.inputCooldown ≤ t - app.inputState.lastInputTime) ∧
      ((app.handleCommandGate t).1 = true →
        ((app.handleCommandGate t).2).inputState.inputCooldown =
            app.inputState.baseCooldown ∧
          ((app.handleCommandGate t).2).inputState.lastInputTime = t)) := by
  refine ⟨gateRun_refines app ts, fun t => ⟨?_, fun hacc => ?_⟩⟩
  · have hstep := (handleCommandGate_spec app t).1
    rw [hstep]
    unfold SpecGate.step InputState.toSpecGate
    by_cases h : app.inputState.inputCooldown ≤ t - app.inputState.lastInputTime <;>
      simp [h]
  · have hstep := handleCommandGate_spec app t
    have h1 : (app.inputState.toSpecGate.step t).1 = true := hstep.1 ▸ hacc
    unfold SpecGate.step InputState.toSpecGate at h1
    by_cases h : app.inputState.inputCooldown ≤ t - app.inputState.lastInputTime
    · have h2 := hstep.2
      unfold SpecGate.step InputState.toSpecGate at h2
      rw [if_pos h] at h2
      exact ⟨congrArg SpecGate.cooldown h2, congrArg SpecGate.lastAcceptedAt h2⟩
    · rw [if_neg h] at h1; simp at h1
theorem c1_admission_gate_witness :
    ([2, 3, 7] : List Time).Pairwise (· < ·) ∧
    (gateRun AppState.init [2, 3, 7]).1 =
      (AppState.init.inputState.toSpecGate.run [2, 3, 7]).1 :=
  ⟨by norm_num, (c1_admission_gate AppState.init [2, 3, 7] (by norm_num)).1⟩

example : (gateRun AppState.init [2, 3, 7]).1 = [2, 7] := by
  simp [gateRun, AppState.handleCommandGate, InputState.isInputAllowed, AppState.init,
    InputState.init, InputState.recordInput]
  norm_num
theorem mem_insertByZ (c x : RenderCommand) (l : List RenderCommand) :
    x ∈ insertByZ c l ↔ x = c ∨ x ∈ l := by
  induction l with
  | nil => simp [insertByZ]
  | cons d ds ih =>
    by_cases h : d.z_index ≤ c.z_index
    · simp [insertByZ, h, ih]; tauto
    · simp [insertByZ, h]

theorem pairwise_insertByZ (c : RenderCommand) (l : List RenderCommand)
    (hl : l.Pairwise (fun a b => a.z_index ≤ b.z_index)) :
    (insertByZ c l).Pairwise (fun a b => a.z_index ≤ b.z_index) := by
  induction l with
  | nil => simp [insertByZ]
  | cons d ds ih =>
    rw [List.pairwise_cons] at hl
    obtain ⟨hd, hds⟩ := hl
    by_cases h : d.z_index ≤ c.z_index
    · rw [insertByZ, if_pos h, List.pairwise_cons]
      refine ⟨fun x hx => ?_, ih hds⟩
      rcases (mem_insertByZ c x ds).1 hx with rfl | hx
      · exact h
      · exact hd x hx
    · rw [insertByZ, if_neg h, List.pairwise_cons]
      refine ⟨fun x hx => ?_, List.pairwise_cons.2 ⟨hd, hds⟩⟩
      have hcd : c.z_index ≤ d.z_index := le_of_lt (lt_of_not_le h)
      rcases List.mem_cons.1 hx with rfl | hx
      · exact hcd
      · exact le_trans hcd (hd x hx)

theorem pairwise_sortByZ (l : List RenderCommand) :
    (sortByZ l).Pairwise (fun a b => a.z_index ≤ b.z_index) := by
  induction l with
  | nil => simp [sortByZ]
  | cons c cs ih => exact pairwise_insertByZ c (sortByZ cs) ih

/-- C10: the render-command sequence returned by `generate_view_state` is in
non-decreasing z-index order for every application state, player frame and
wall-clock time, regardless of the order the commands were inserted in. -/
theorem c10_view_state_sorted (app : AppState) (frame : Option Surface) (now : Time) :
    ((generateViewState app frame now).render_commands).Pairwise
      (fun a b => a.z_index ≤ b.z_index) := by
  unfold generateViewState ViewState.sortCommands
  exact pairwise_sortByZ _
/-- C4 counterexample: with an empty mapping table, an axis-0 sample of 0.7
(beyond the 0.5 threshold) yields a command on every call; in particular the
second of two consecutive same-sign above-threshold samples does not yield
`none`, contradicting the claimed sign-change debounce. -/
theorem c4_counterexample :
    mapAxisToCommand emptyMappings 0 0 (7/10) = some (.videoChannel 1) ∧
    getAxisCommands emptyMappings 0 [7/10] = [.videoChannel 1] := by
  have habs : |(7/10 : ℚ)| = 7/10 := abs_of_pos (by norm_num)
  constructor <;>
    norm_num [mapAxisToCommand, getAxisCommands, emptyMappings, habs,
      List.filterMap_cons, List.filterMap_nil]
/-- C4 amended: `map_axis_to_command` keeps no previous-sample state, so for
two consecutive same-sign samples strictly beyond the threshold on an
unmapped horizontal/vertical axis, the second sample yields the same channel
command as the first (one command per sampled tick, not one per crossing). -/
theorem c4_amended (m : InputMappings) (j a : ℕ) (v₁ v₂ : ℚ)
    (ha : a = 0 ∨ a = 1)
    (h₁ : 1/2 < |v₁|) (h₂ : 1/2 < |v₂|)
    (hsign : 0 < v₁ ↔ 0 < v₂)
    (hm : m (.axis j a (if 0 < v₁ then "positive" else "negative")) = none) :
    mapAxisToCommand m j a v₂ = some (.videoChannel (if 0 < v₁ then 1 else -1)) ∧
    mapAxisToCommand m j a v₂ = mapAxisToCommand m j a v₁ := by
  have habs₁ : ¬ |v₁| < 1/2 := not_lt.2 (le_of_lt h₁)
  have habs₂ : ¬ |v₂| < 1/2 := not_lt.2 (le_of_lt h₂)
  by_cases hpos : 0 < v₁
  · have hpos₂ : 0 < v₂ := hsign.1 hpos
    have hv₁ : (2⁻¹ : ℚ) < v₁ := by rw [← one_div]; rwa [abs_of_pos hpos] at h₁
    have hv₂ : (2⁻¹ : ℚ) < v₂ := by rw [← one_div]; rwa [abs_of_pos hpos₂] at h₂
    have habs₁' : (2⁻¹ : ℚ) ≤ |v₁| := by rw [← one_div]; exact le_of_lt h₁
    have habs₂' : (2⁻¹ : ℚ) ≤ |v₂| := by rw [← one_div]; exact le_of_lt h₂
    rw [if_pos hpos] at hm
    rcases ha with rfl | rfl <;>
      · simp [mapAxisToCommand, habs₁', habs₂', hpos, hpos₂, hv₁, hv₂, hm]
        rw [if_neg (not_lt.2 habs₂'), if_neg (not_lt.2 habs₁')]
  · have hpos₂ : ¬ 0 < v₂ := fun h => hpos (hsign.2 h)
    have hneg₁ : v₁ < -(2⁻¹ : ℚ) := by
      have := abs_of_nonpos (not_lt.1 hpos)
      rw [← one_div]; rw [this] at h₁; linarith
    have hneg₂ : v₂ < -(2⁻¹ : ℚ) := by
      have := abs_of_nonpos (not_lt.1 hpos₂)
      rw [← one_div]; rw [this] at h₂; linarith
    have hv₁ : ¬ (2⁻¹ : ℚ) < v₁ := by rw [← one_div]; intro h; linarith [not_lt.1 hpos]
    have hv₂ : ¬ (2⁻¹ : ℚ) < v₂ := by rw [← one_div]; intro h; linarith [not_lt.1 hpos₂]
    have habs₁' : (2⁻¹ : ℚ) ≤ |v₁| := by rw [← one_div]; exact le_of_lt h₁
    have habs₂' : (2⁻¹ : ℚ) ≤ |v₂| := by rw [← one_div]; exact le_of_lt h₂
    rw [if_neg hpos] at hm
    rcases ha with rfl | rfl <;>
      · simp [mapAxisToCommand, habs₁', habs₂', hpos, hpos₂, hv₁, hv₂, hneg₁, hneg₂, hm]
        rw [if_neg (not_lt.2 habs₂'), if_neg (not_lt.2 habs₁')]

theorem c4_amended_witness :
    mapAxisToCommand emptyMappings 0 0 (3/5) = some (.videoChannel 1) ∧
    mapAxisToCommand emptyMappings 0 0 (3/5) = mapAxisToCommand emptyMappings 0 0 (7/10) := by
  have h := c4_amended emptyMappings 0 0 (7/10) (3/5) (Or.inl rfl)
    (by rw [abs_of_pos] <;> norm_num) (by rw [abs_of_pos] <;> norm_num)
    (by norm_num) (by simp [emptyMappings])
  rw [if_pos (by norm_num : (0:ℚ) < 7/10)] at h
  exact ⟨h.1, h.2⟩
/-- `change_channel` always stores the new index `(current + d) mod N`,
regardless of playback success. -/
theorem changeChannelState_currentChannel (env : Env) (channels : List Channel)
    (d : ℤ) (vc : VideoContent) (h : 0 < channels.length) :
    (changeChannelState env channels d vc).currentChannel =
      (((vc.currentChannel : ℤ) + d) % (channels.length : ℤ)).toNat := by
  have hne : channels.length ≠ 0 := Nat.pos_iff_ne_zero.1 h
  have hNpos : (0 : ℤ) < (channels.length : ℤ) := by exact_mod_cast h
  set idx : ℤ := ((vc.currentChannel : ℤ) + d) % (channels.length : ℤ) with hidx
  have h0 : 0 ≤ idx := Int.emod_nonneg _ (by exact_mod_cast hne)
  have hlt : idx < (channels.length : ℤ) := Int.emod_lt_of_pos _ hNpos
  have hltn : idx.toNat < channels.length := by omega
  have hget : channels[idx.toNat]? = some (channels.get ⟨idx.toNat, hltn⟩) :=
    List.getElem?_eq_getElem hltn
  simp only [changeChannelState, VideoContent.changeChannel, VideoContent.playChannel,
    if_neg hne, ← hidx, hget]
  rw [if_pos (by simp [h0, hlt])]
  split <;> rfl
theorem iterate_changeChannel_next (env : Env) (channels : List Channel)
    (h : 0 < channels.length) :
    ∀ (k : ℕ) (vc : VideoContent), vc.currentChannel < channels.length →
      ((changeChannelState env channels 1)^[k] vc).currentChannel =
        (vc.currentChannel + k) % channels.length := by
  intro k
  induction k with
  | zero =>
    intro vc hc
    simpa using (Nat.mod_eq_of_lt hc).symm
  | succ k ih =>
    intro vc hc
    rw [Function.iterate_succ_apply]
    have hstep : (changeChannelState env channels 1 vc).currentChannel =
        (vc.currentChannel + 1) % channels.length := by
      rw [changeChannelState_currentChannel env channels 1 vc h]
      have hcast : (((vc.currentChannel + 1) % channels.length : ℕ) : ℤ) =
          ((vc.currentChannel : ℤ) + 1) % (channels.length : ℤ) := by
        push_cast
        rfl
      omega
    have hlt : (changeChannelState env channels 1 vc).currentChannel < channels.length := by
      rw [hstep]; exact Nat.mod_lt _ h
    rw [ih _ hlt, hstep, Nat.mod_add_mod]
    congr 1
    omega
/-- C6: `ChangeChannel` advances the index modulo the channel count in both
directions: applying `+1` as many times as there are channels returns to the
starting index, and `-1` from index 0 wraps to the last index. -/
theorem c6_channel_wraparound (env : Env) (channels : List Channel) (vc : VideoContent)
    (h : 0 < channels.length) (hc : vc.currentChannel < channels.length) :
    ((changeChannelState env channels 1)^[channels.length] vc).currentChannel =
      vc.currentChannel ∧
    (vc.currentChannel = 0 →
      (changeChannelState env channels (-1) vc).currentChannel = channels.length - 1) := by
  constructor
  · rw [iterate_changeChannel_next env channels h channels.length vc hc,
      Nat.add_mod_right, Nat.mod_eq_of_lt hc]
  · intro h0
    rw [changeChannelState_currentChannel env channels (-1) vc h, h0]
    have hN : (0 : ℤ) < (channels.length : ℤ) := by exact_mod_cast h
    have hrw : ((0 : ℕ) : ℤ) + (-1) = -1 := by norm_num
    rw [hrw]
    have hsplit : (-1 : ℤ) =
        ((channels.length : ℤ) - 1) + (channels.length : ℤ) * (-1) := by ring
    rw [hsplit, Int.add_mul_emod_self_left,
      Int.emod_eq_of_lt (by omega) (by omega)]
    omega

theorem c6_channel_wraparound_witness :
    ((changeChannelState envMissing sampleChannels 1)^[sampleChannels.length]
        VideoContent.init).currentChannel = VideoContent.init.currentChannel ∧
    (VideoContent.init.currentChannel = 0 →
      (changeChannelState envMissing sampleChannels (-1)
          VideoContent.init).currentChannel = sampleChannels.length - 1) :=
  c6_channel_wraparound envMissing sampleChannels VideoContent.init
    (by simp [sampleChannels]) (by simp [sampleChannels, VideoContent.init])
/-- C7: re-selecting the content whose video is already playing returns before
any player interaction: the result records only the feedback, sound and TTS,
the content state (including the video sub-state) is unchanged, and no
playback-start call appears in the effect trace. -/
theorem c7_reselect_noop (env : Env) (name : String) (app : AppState) (now : Time)
    (h1 : app.mode = .VIDEO)
    (h2 : app.contentState.videoContent.isPlaying = true)
    (h3 : app.contentState.videoContent.currentVideoFilename = some (name ++ ".mp4")) :
    contentExecute env name app now =
      .ok (app.showFeedback (name.capitalize ++ " selected!") blueColor now,
           [.playSound (name ++ ".wav"), .speak name]) ∧
    (app.showFeedback (name.capitalize ++ " selected!") blueColor now).contentState =
      app.contentState ∧
    (∀ f, Effect.playVideoCall f ∉
      ([.playSound (name ++ ".wav"), .speak name] : List Effect)) := by
  refine ⟨?_, rfl, by simp⟩
  simp [contentExecute, AppState.showFeedback, h1, h2, h3, Mode.name]
theorem c7_reselect_noop_witness :
    contentExecute envMissing "ball" videoPlayingApp 10 =
      .ok (videoPlayingApp.showFeedback ("ball".capitalize ++ " selected!") blueColor 10,
           [.playSound ("ball" ++ ".wav"), .speak "ball"]) :=
  (c7_reselect_noop envMissing "ball" videoPlayingApp 10 rfl rfl rfl).1
/-- C2 counterexample: with no video file, no placeholder and no loadable
image, `SelectContent("ball")` from the initial (WAITING) state leaves the
mode at WAITING — it does not end in Text mode, because
`ContentCommand.execute` has no text fallback. -/
theorem c2_counterexample :
    (contentExecute envMissing "ball" AppState.init 100).map (fun p => p.1.mode) =
      .ok Mode.WAITING ∧ Mode.WAITING ≠ Mode.TEXT := by
  exact ⟨rfl, by simp⟩
/-- C2 amended: when neither a video file, nor a placeholder, nor a loadable
image exists, `SelectContent(name)` leaves the mode and the whole content
state unchanged and makes no playback call; the failure is surfaced only
through the feedback state (a red "Failed to load image" message).  There is
no video -> image -> text chain: the fallback stops at the image step. -/
theorem c2_amended (env : Env) (name : String) (app : AppState) (now : Time)
    (h1 : env.pathExists ("videos/" ++ (name ++ ".mp4")) = false)
    (h2 : env.pathExists ("videos/" ++ (name ++ ".mp4") ++ ".txt") = false)
    (h3 : env.loadImage (name ++ ".jpg") = none) :
    ∃ (app' : AppState) (effs : List Effect),
      contentExecute env name app now = .ok (app', effs) ∧
      app'.mode = app.mode ∧
      app'.contentState = app.contentState ∧
      (∀ f, Effect.playVideoCall f ∉ effs) := by
  by_cases hrep : (app.mode.name == "VIDEO" &&
      app.contentState.videoContent.isPlaying &&
      (app.contentState.videoContent.currentVideoFilename ==
        some (name ++ ".mp4"))) = true
  · refine ⟨app.showFeedback (name.capitalize ++ " selected!") blueColor now,
      [.playSound (name ++ ".wav"), .speak name], ?_, rfl, rfl, by simp⟩
    simp only [contentExecute, AppState.showFeedback, hrep, if_true]
  · refine ⟨(app.showFeedback (name.capitalize ++ " selected!") blueColor now).showFeedback
        ("Failed to load image: " ++ (name ++ ".jpg")) redColor now,
      [.playSound (name ++ ".wav"), .speak name], ?_, rfl, rfl, by simp⟩
    simp only [contentExecute, displayImageFallback, AppState.showFeedback, hrep, h1, h2, h3,
      Bool.false_eq_true, if_false, List.append_nil]
theorem c2_amended_witness :
    ∃ (app' : AppState) (effs : List Effect),
      contentExecute envMissing "ball" AppState.init 100 = .ok (app', effs) ∧
      app'.mode = AppState.init.mode ∧
      app'.contentState = AppState.init.contentState ∧
      (∀ f, Effect.playVideoCall f ∉ effs) :=
  c2_amended envMissing "ball" AppState.init 100 rfl rfl rfl

/-- C3: `Mode` has only WAITING/VIDEO/TEXT and `ContentType` has only
NONE/VIDEO/TEXT/WAITING; `Mode.IMAGE` and `ContentType.IMAGE` do not resolve;
consequently, whenever the image fallback succeeds in loading an image, the
execution raises `AttributeError` (inside `ContentState.set_image` at
`ContentType.IMAGE`) instead of entering an image display mode — the system
never displays a still image without raising. -/
theorem c3_no_image_mode :
    (∀ m : Mode, m = .WAITING ∨ m = .VIDEO ∨ m = .TEXT) ∧
    (∀ c : ContentType, c = .NONE ∨ c = .VIDEO ∨ c = .TEXT ∨ c = .WAITING) ∧
    Mode.fromName "IMAGE" = none ∧
    ContentType.fromName "IMAGE" = none ∧
    (∀ (env : Env) (name : String) (app : AppState) (now : Time) (img : Surface),
      env.loadImage (name ++ ".jpg") = some img →
      displayImageFallback env name app now = .error (.attributeError "IMAGE")) := by
  refine ⟨fun m => ?_, fun c => ?_, rfl, rfl, fun env name app now img h => ?_⟩
  · cases m <;> simp
  · cases c <;> simp
  · simp only [displayImageFallback, h]
    rfl

theorem c3_no_image_mode_witness :
    displayImageFallback envWithImage "ball" AppState.init 100 =
      .error (.attributeError "IMAGE") :=
  c3_no_image_mode.2.2.2.2 envWithImage "ball" AppState.init 100 ⟨"img"⟩ rfl
/-- C5 counterexample: from the initial WAITING state, `VideoChannelCommand(+1)`
leaves the mode at WAITING and the channel at 0 — `change_video_channel`
returns `(False, None)` whenever the content type is not VIDEO, and the
command's success branch (`elif result:`) is unreachable. -/
theorem c5_counterexample :
    (videoChannelExecute envMissing sampleChannels 1 AppState.init 100).map
        (fun p => (p.1.mode, p.1.contentState.videoContent.currentChannel)) =
      .ok (Mode.WAITING, 0) ∧
    Mode.WAITING ≠ Mode.VIDEO ∧ Mode.WAITING ≠ Mode.TEXT := by
  exact ⟨rfl, by simp, by simp⟩

theorem emod_toNat_lt (c : ℕ) (d : ℤ) (N : ℕ) (h : 0 < N) :
    (((c : ℤ) + d) % (N : ℤ)).toNat < N := by
  have hne : ((N : ℕ) : ℤ) ≠ 0 := by exact_mod_cast h.ne'
  have h0 : (0 : ℤ) ≤ ((c : ℤ) + d) % (N : ℤ) := Int.emod_nonneg _ hne
  have h1 : ((c : ℤ) + d) % (N : ℤ) < (N : ℤ) :=
    Int.emod_lt_of_pos _ (by exact_mod_cast h)
  omega
/-- C5 amended: `VideoChannelCommand(d)` only browses when the content type is
already VIDEO.  Otherwise it records the change and shows feedback but leaves
the mode, the channel index and the whole content state unchanged.  In VIDEO
content, the index always advances to `(current + d) mod N`; on playback
failure the application ends in Text mode, while on success the mode field is
simply left as it was (the `elif result:` assignment of Video mode is
unreachable because `change_video_channel` always returns a tuple). -/
theorem c5_amended (env : Env) (channels : List Channel) (d : ℤ) (app : AppState)
    (now : Time) :
    (app.contentState.currentType ≠ .VIDEO →
      videoChannelExecute env channels d app now =
        .ok (({ app with inputState := app.inputState.recordChannelChange now
               }).showFeedback "Channel changed!" blueColor now, [])) ∧
    (∀ ch : Channel, app.contentState.currentType = .VIDEO →
      channels[(((app.contentState.videoContent.currentChannel : ℤ) + d) %
          (channels.length : ℤ)).toNat]? = some ch →
      ∃ (app' : AppState) (effs : List Effect),
        videoChannelExecute env channels d app now = .ok (app', effs) ∧
        app'.contentState.videoContent.currentChannel =
          (((app.contentState.videoContent.currentChannel : ℤ) + d) %
            (channels.length : ℤ)).toNat ∧
        (env.playVideo ch.video = true →
          app'.mode = app.mode ∧ app'.contentState.currentType = .VIDEO) ∧
        (env.playVideo ch.video = false → app'.mode = .TEXT)) := by
  constructor
  · intro hv
    have hbeq : (app.contentState.currentType == ContentType.VIDEO) = false := by
      cases h : app.contentState.currentType <;> simp_all
    simp only [videoChannelExecute, ContentState.changeVideoChannel, AppState.showFeedback,
      hbeq, Bool.false_eq_true, if_false]
  · intro ch hv hch
    have hlt0 : (((app.contentState.videoContent.currentChannel : ℤ) + d) %
        (channels.length : ℤ)).toNat < channels.length := by
      rcases List.getElem?_eq_some.1 hch with ⟨h, _⟩
      exact h
    have hlen : 0 < channels.length := by omega
    have hne : channels.length ≠ 0 := hlen.ne'
    set c := app.contentState.videoContent.currentChannel with hc
    set idx : ℤ := ((c : ℤ) + d) % (channels.length : ℤ) with hidx
    have h0 : 0 ≤ idx := Int.emod_nonneg _ (by exact_mod_cast hne)
    have h1 : idx < (channels.length : ℤ) :=
      Int.emod_lt_of_pos _ (by exact_mod_cast hlen)
    simp only [videoChannelExecute, ContentState.changeVideoChannel,
      VideoContent.changeChannel, VideoContent.playChannel, AppState.showFeedback, hv,
      beq_self_eq_true, if_true, if_neg hne, ← hc, ← hidx, hch,
      h0, h1, Bool.and_self, Bool.true_and, decide_eq_true_eq]
    cases hp : env.playVideo ch.video with
    | true =>
      simp only [hp, if_true]
      exact ⟨_, _, rfl, rfl, fun _ => ⟨rfl, rfl⟩, fun hf => by simp [hp] at hf⟩
    | false =>
      simp only [hp, Bool.false_eq_true, if_false]
      have h2lt : (((idx.toNat : ℤ) + d) % (channels.length : ℤ)).toNat <
          channels.length := emod_toNat_lt idx.toNat d channels.length hlen
      have h2 : channels[(((idx.toNat : ℤ) + d) % (channels.length : ℤ)).toNat]? =
          some (channels.get ⟨(((idx.toNat : ℤ) + d) % (channels.length : ℤ)).toNat, h2lt⟩) :=
        List.getElem?_eq_getElem h2lt
      simp only [hp, Bool.false_eq_true, if_false, Bool.not_false, Option.isSome_some,
        Bool.and_self, eq_self_iff_true, if_true, h2, false_implies, true_implies, true_and]
      refine ⟨_, _, rfl, ?_, rfl⟩
      cases hfont : app.font <;>
        simp [ContentState.setText, VideoContent.stop, TextContent.setText, hfont]
theorem c5_amended_witness :
    ∃ (app' : AppState) (effs : List Effect),
      videoChannelExecute envMissing sampleChannels 1 videoPlayingApp 100 =
        .ok (app', effs) ∧
      app'.contentState.videoContent.currentChannel =
        (((videoPlayingApp.contentState.videoContent.currentChannel : ℤ) + 1) %
          (sampleChannels.length : ℤ)).toNat ∧
      (envMissing.playVideo (Channel.mk "birds.mp4" "Birds").video = true →
        app'.mode = videoPlayingApp.mode ∧
        app'.contentState.currentType = .VIDEO) ∧
      (envMissing.playVideo (Channel.mk "birds.mp4" "Birds").video = false →
        app'.mode = .TEXT) :=
  (c5_amended envMissing sampleChannels 1 videoPlayingApp 100).2
    ⟨"birds.mp4", "Birds"⟩ rfl rfl
theorem imageReachable_bothOrNeither (s : ImageContent) (hs : ImageReachable s) :
    s.previousImage.isSome = s.nextImage.isSome := by
  induction hs with
  | init => rfl
  | set st img dt now hst ih =>
    unfold ImageContent.setImage
    by_cases h : (st.currentImage.isSome && !st.inTransition) = true
    · rw [if_pos h]
      simp only [Bool.and_eq_true] at h
      simp [h.1]
    · rw [if_neg h]
      exact ih
  | upd st now hst ih =>
    unfold ImageContent.update
    by_cases h : (st.inTransition &&
        decide (st.transitionDuration ≤ now - st.transitionStartTime)) = true
    · simp only [h, if_true]
    · simp only [h, Bool.false_eq_true, if_neg, if_false]
      exact ih

theorem updateRun_append (st : ImageContent) (l₁ l₂ : List Time) :
    st.updateRun (l₁ ++ l₂) = (st.updateRun l₁).updateRun l₂ := by
  induction l₁ generalizing st with
  | nil => rfl
  | cons u us ih =>
    simp only [List.cons_append, ImageContent.updateRun]
    exact ih _

theorem updateRun_eq_self (st : ImageContent) (ts : List Time)
    (h : ∀ u ∈ ts, u - st.transitionStartTime < st.transitionDuration) :
    st.updateRun ts = st := by
  induction ts with
  | nil => rfl
  | cons u us ih =>
    have hu : ¬ (st.transitionDuration ≤ u - st.transitionStartTime) :=
      not_le.2 (h u (List.mem_cons_self u us))
    have hcond : (st.inTransition &&
        decide (st.transitionDuration ≤ u - st.transitionStartTime)) = false := by
      simp [hu]
    simp only [ImageContent.updateRun, ImageContent.update, hcond, Bool.false_eq_true,
      if_false]
    exact ih fun v hv => h v (List.mem_cons_of_mem u hv)

/-- C8: for an Image sub-state in transition with duration `d`, update calls
whose elapsed time is below `d` leave the sub-state untouched, and the first
update call with elapsed time at least `d` commits (current := next, previous
and next cleared, transition flag dropped); moreover every reachable image
sub-state has `previous`/`next` both populated or both empty. -/
theorem c8_crossfade (st : ImageContent) (ts : List Time) (t : Time)
    (h : st.inTransition = true)
    (hts : ∀ u ∈ ts, u - st.transitionStartTime < st.transitionDuration)
    (ht : st.transitionDuration ≤ t - st.transitionStartTime) :
    st.updateRun ts = st ∧
    st.updateRun (ts ++ [t]) =
      { st with
        currentImage := st.nextImage
        previousImage := none
        nextImage := none
        inTransition := false } ∧
    (∀ s, ImageReachable s → s.previousImage.isSome = s.nextImage.isSome) := by
  have h1 : st.updateRun ts = st := updateRun_eq_self st ts hts
  refine ⟨h1, ?_, imageReachable_bothOrNeither⟩
  rw [updateRun_append, h1]
  simp only [ImageContent.updateRun, ImageContent.update, h, ht, decide_eq_true_eq,
    Bool.true_and, if_pos, decide_eq_true]

theorem c8_crossfade_witness :
    transitioningImage.updateRun [3/2] = transitioningImage ∧
    transitioningImage.updateRun ([3/2] ++ [2]) =
      { transitioningImage with
        currentImage := transitioningImage.nextImage
        previousImage := none
        nextImage := none
        inTransition := false } ∧
    (∀ s, ImageReachable s → s.previousImage.isSome = s.nextImage.isSome) :=
  c8_crossfade transitioningImage [3/2] 2 rfl
    (by
      intro u hu
      simp only [List.mem_singleton] at hu
      subst hu
      show (3/2 : ℚ) - 1 < 4/5
      norm_num)
    (by
      show (4/5 : ℚ) ≤ 2 - 1
      norm_num)
/-- C9: an active rejection feedback updated with the gate becomes inactive
exactly when the gate would accept input at that update's time; while the gate
would still reject, the feedback (and its rejection flag) stay untouched. -/
theorem c9_rejection_feedback (f : FeedbackState) (s : InputState) (now : Time)
    (hact : f.isActive = true) (hrej : f.inputRejected = true) :
    ((f.update now (some s)).1.isActive = false ↔
      s.inputCooldown ≤ now - s.lastInputTime) ∧
    (¬ s.inputCooldown ≤ now - s.lastInputTime →
      (f.update now (some s)).1 = f) := by
  unfold FeedbackState.update InputState.isInputAllowed
  by_cases h : s.inputCooldown ≤ now - s.lastInputTime
  · simp [hact, hrej, h]
  · simp [hact, hrej, h]

theorem c9_rejection_feedback_witness :
    (((FeedbackState.init.showFeedback "Too fast! Wait 1.5s" yellowColor 5).update 6
        (some { InputState.init with lastInputTime := 5 })).1.isActive = false ↔
      ({ InputState.init with lastInputTime := 5 } : InputState).inputCooldown ≤ 6 - 5) ∧
    (¬ ({ InputState.init with lastInputTime := 5 } : InputState).inputCooldown ≤ 6 - 5 →
      ((FeedbackState.init.showFeedback "Too fast! Wait 1.5s" yellowColor 5).update 6
        (some { InputState.init with lastInputTime := 5 })).1 =
        FeedbackState.init.showFeedback "Too fast! Wait 1.5s" yellowColor 5) :=
  c9_rejection_feedback (FeedbackState.init.showFeedback "Too fast! Wait 1.5s" yellowColor 5)
    { InputState.init with lastInputTime := 5 } 6 rfl (by simp [FeedbackState.showFeedback, yellowColor])
